import Mathlib

/-!
Shallow embedding of `convert_colmap2mesh.py`: the COLMAP-to-mesh pipeline
orchestrator.  Pure data transformations (camera-model normalization, scene
validation) become Lean functions; the stateful pipeline (`main` and its six
stages) becomes explicit state passing over a finite filesystem record, with
the external tools (OpenMVS commands) abstracted as an oracle `World` that
assigns each command an exit code and a set of produced artifact files.
-/

namespace Colmap2Mesh

/-! ## Camera records and camera-model normalization
    (embedding of `convert_cameras_to_pinhole`, lines 154-203) -/

/-- A COLMAP camera record: model tag, image size, ordered parameter list,
and its integer id.  Parameters are modelled as rationals: the Python code
only copies, compares and halves them, all exact operations. -/
structure Camera where
  model : String
  width : Nat
  height : Nat
  params : List Rat
  camera_id : Nat
deriving DecidableEq

/-- The models the code sends through the `f, cx, cy` branch
(line 177 of `convert_colmap2mesh.py`). -/
def singleFocalModels : List String :=
  ["SIMPLE_PINHOLE", "SIMPLE_RADIAL", "SIMPLE_RADIAL_FISHEYE"]

/-- The models the code sends through the `fx, fy, cx, cy` branch
(line 181 of `convert_colmap2mesh.py`). -/
def dualFocalModels : List String :=
  ["PINHOLE", "RADIAL", "RADIAL_FISHEYE", "OPENCV", "OPENCV_FISHEYE", "FULL_OPENCV"]

/-- Fallback intrinsics for an unrecognized model (lines 184-187):
`fx = fy = max(width, height)`, `cx = width/2`, `cy = height/2`. -/
def fallbackParams (width height : Nat) : List Rat :=
  [max (width : Rat) height, max (width : Rat) height,
   (width : Rat) / 2, (height : Rat) / 2]

/-- Per-camera body of the loop in `convert_cameras_to_pinhole`
(lines 167-198).  A `PINHOLE` camera passes through unchanged; otherwise a
fresh camera with model `PINHOLE` and four parameters is built.  Python's
`params[i]` on a too-short list raises; here `getD` is used and theorems
carry the (per-model) length invariant where it matters. -/
def convertCamera (camId : Nat) (c : Camera) : Camera :=
  if c.model = "PINHOLE" then c
  else
    let newParams : List Rat :=
      if singleFocalModels.contains c.model then
        [c.params.getD 0 0, c.params.getD 0 0, c.params.getD 1 0, c.params.getD 2 0]
      else if dualFocalModels.contains c.model then
        [c.params.getD 0 0, c.params.getD 1 0, c.params.getD 2 0, c.params.getD 3 0]
      else
        fallbackParams c.width c.height
    { model := "PINHOLE", width := c.width, height := c.height,
      params := newParams, camera_id := camId }

/-- A reconstruction, reduced to what the conversion touches: the camera
table keyed by camera id. -/
structure Recon where
  cameras : List (Nat × Camera)
deriving DecidableEq

/-- The camera loop of `convert_cameras_to_pinhole` applied to the whole
reconstruction (lines 167-198). -/
def convertReconstruction (r : Recon) : Recon :=
  ⟨r.cameras.map (fun p => (p.1, convertCamera p.1 p.2))⟩

/-- Reconstruction directories on disk: a map from directory path to the
reconstruction stored there (`none` = no parseable reconstruction). -/
def ReconFS : Type := String → Option Recon

/-- Effectful embedding of `convert_cameras_to_pinhole sparse_dir output_dir`
(lines 162-203): load the reconstruction at `sparse_dir` (raising if
unreadable, modelled as `Except.error`), normalize every camera, and write
the result at `output_dir` only. -/
def convert_cameras_to_pinhole (fs : ReconFS) (sparse_dir output_dir : String) :
    Except Unit ReconFS :=
  match fs sparse_dir with
  | none => Except.error ()
  | some r =>
      Except.ok (fun p => if p = output_dir then some (convertReconstruction r) else fs p)

/-! ## Scene validation (embedding of `validate_input_structure`, lines 115-151) -/

/-- The extension list of line 126. -/
def image_extensions : List String :=
  [".jpg", ".jpeg", ".png", ".JPG", ".JPEG", ".PNG"]

/-- Suffix test on the character lists of two strings (same semantics as
`str.endswith`, stated over `String.data` so it computes by reduction). -/
def strEndsWith (name suffix : String) : Bool :=
  suffix.data.isSuffixOf name.data

/-- `pathlib.Path.glob(f"*{ext}")` on a file name: `*` matches any run of
characters, including a leading dot (`Path.glob` matches hidden files).
So the name matches exactly when it ends with `ext`, case-sensitively. -/
def globMatch (ext name : String) : Bool :=
  strEndsWith name ext

/-- The `image_files` accumulation loop of lines 127-129: one glob per
extension, results concatenated. -/
def imageFilesFound (names : List String) : List String :=
  image_extensions.flatMap (fun ext => names.filter (globMatch ext))

/-- The three reconstruction files required in `sparse/` (line 143). -/
def required_files : List String := ["cameras.bin", "images.bin", "points3D.bin"]

/-- Lstat-level state of the `dense/images` path: missing, a real
directory, or a symbolic link with its target path and whether that target
currently exists. -/
inductive ImgEntry where
  | absent
  | realDir
  | symlink (target : String) (targetExists : Bool)
deriving DecidableEq

/-- Terminal progress record written by `create_progress_file`
(lines 376-391). -/
structure Progress where
  completed : Bool
  scene_dir : String
  max_face_area : Int
  refine_scales : String
  textured : Bool
deriving DecidableEq

/-- The finite set of paths the pipeline reads or writes, as a structured
record.  Boolean fields are file/directory existence; `sparseRecon` and
`denseSparse` hold the reconstruction content of `sparse/` and
`dense/sparse`; `denseImages` is the lstat state of `dense/images`. -/
structure FS where
  imagesDirExists : Bool
  imageNames : List String
  sparseDirExists : Bool
  sparseFiles : List String
  sparseRecon : Option Recon
  denseDirExists : Bool
  denseImages : ImgEntry
  denseSparse : Option Recon
  mvsDirExists : Bool
  scene_mvs : Bool
  scene_dense_mvs : Bool
  scene_dense_mesh_ply : Bool
  refine_ply : Bool
  texture_ply : Bool
  progress : Option Progress
deriving DecidableEq

/-- Validation failure cases, in the order the code checks them. -/
inductive ValidationError where
  | imagesDirMissing
  | noImages
  | sparseDirMissing
  | missingFile (name : String)
deriving DecidableEq

/-- Embedding of `validate_input_structure` (lines 115-151): each failing
check prints and exits; the first failure wins. -/
def validate_input_structure (fs : FS) : Except ValidationError Unit :=
  if !fs.imagesDirExists then Except.error ValidationError.imagesDirMissing
  else if (imageFilesFound fs.imageNames).length = 0 then
    Except.error ValidationError.noImages
  else if !fs.sparseDirExists then Except.error ValidationError.sparseDirMissing
  else
    match required_files.find? (fun f => !(fs.sparseFiles.contains f)) with
    | some f => Except.error (ValidationError.missingFile f)
    | none => Except.ok ()

/-! ## The external-command oracle and the pipeline state machine
    (embedding of `run_command`, the stage functions and `main`) -/

/-- `Path.exists()` on the `dense/images` path: follows symlinks, so a
dangling symlink reports `false`. -/
def imgPathExists : ImgEntry → Bool
  | ImgEntry.absent => false
  | ImgEntry.realDir => true
  | ImgEntry.symlink _ t => t

/-- `Path.is_symlink()` on the `dense/images` path: does not follow. -/
def isSymlinkEntry : ImgEntry → Bool
  | ImgEntry.symlink _ _ => true
  | _ => false

/-- The artifact files an external tool invocation may create or remove
(`some b` sets existence to `b`, `none` leaves it alone).  External tools
write only into the mvs working area; they never touch the scene inputs or
`progress.json`. -/
structure ToolFiles where
  scene_mvs : Option Bool := none
  scene_dense_mvs : Option Bool := none
  scene_dense_mesh_ply : Option Bool := none
  refine_ply : Option Bool := none
  texture_ply : Option Bool := none

/-- Merge a tool's file effects into the filesystem. -/
def applyTool (t : ToolFiles) (fs : FS) : FS :=
  { fs with
    scene_mvs := t.scene_mvs.getD fs.scene_mvs
    scene_dense_mvs := t.scene_dense_mvs.getD fs.scene_dense_mvs
    scene_dense_mesh_ply := t.scene_dense_mesh_ply.getD fs.scene_dense_mesh_ply
    refine_ply := t.refine_ply.getD fs.refine_ply
    texture_ply := t.texture_ply.getD fs.texture_ply }

/-- The environment: which command names resolve on the search path
(`shutil.which`), and, per external command invocation, its exit status and
file effects. -/
structure World where
  which : String → Bool
  exit : List String → FS → Nat
  effect : List String → FS → ToolFiles

/-- Ways a run terminates unsuccessfully. -/
inductive Failure where
  | depError (missing : List String)
  | validationError (e : ValidationError)
  | cmdError (cmd : List String)
  | stageError (stage : String)
  | fileExistsError
  | reconLoadError
deriving DecidableEq

/-- How a run of `main` terminates: full success, the resume-gate short
circuit, or a failure. -/
inductive Outcome where
  | ok
  | skipped
  | failed (f : Failure)
deriving DecidableEq

/-- Process exit status for each outcome: `main` returns normally (status 0)
on success or on the resume-gate path; every failure path calls
`sys.exit(1)` or dies on an uncaught exception (status 1). -/
def Outcome.exitCode : Outcome → Nat
  | Outcome.ok => 0
  | Outcome.skipped => 0
  | Outcome.failed _ => 1

/-- Result of a pipeline fragment: the commands it executed (in order) and
the filesystem it left, with `fail` recording why it aborted. -/
inductive StepRes where
  | ok (cmds : List (List String)) (fs : FS)
  | fail (f : Failure) (cmds : List (List String)) (fs : FS)
deriving DecidableEq

/-- Sequencing: a failure aborts everything after it (Python: `sys.exit` /
an uncaught exception unwinds `main`); commands accumulate. -/
def StepRes.andThen : StepRes → (FS → StepRes) → StepRes
  | StepRes.ok cs fs, f =>
      match f fs with
      | StepRes.ok cs' fs' => StepRes.ok (cs ++ cs') fs'
      | StepRes.fail g cs' fs' => StepRes.fail g (cs ++ cs') fs'
  | StepRes.fail g cs fs, _ => StepRes.fail g cs fs

/-- The executed-command list of a pipeline fragment. -/
def StepRes.cmds : StepRes → List (List String)
  | StepRes.ok cs _ => cs
  | StepRes.fail _ cs _ => cs

/-- Embedding of `run_command` (lines 93-112): run the command through the
oracle; `check=True` turns a non-zero exit status into an uncaught
`CalledProcessError` carrying the command line. -/
def run_command (w : World) (c : List String) (fs : FS) : StepRes :=
  let fs' := applyTool (w.effect c fs) fs
  if w.exit c fs = 0 then StepRes.ok [c] fs'
  else StepRes.fail (Failure.cmdError c) [c] fs'

/-- Filesystem events of the `dense/images` preparation (lines 223-232). -/
inductive FsEvent where
  | unlinked
  | removedTree
  | linked
deriving DecidableEq

/-- The symlink dance of lines 224-231: if the path exists (symlinks
followed), unlink it when it is a symlink, else delete the tree; then
`symlink_to` creates the fresh link — raising `FileExistsError` when an
entry is still present (a dangling symlink is not removed by the first
step, since `Path.exists()` follows the link and reports `False`).
`target` is the resolved scene images directory the fresh link points at.
Returns the event list in order and the final entry. -/
def prepareImages (entry : ImgEntry) (target : String) (imagesExists : Bool) :
    Except Unit (List FsEvent × ImgEntry) :=
  let destroyed : List FsEvent × ImgEntry :=
    if imgPathExists entry then
      if isSymlinkEntry entry then ([FsEvent.unlinked], ImgEntry.absent)
      else ([FsEvent.removedTree], ImgEntry.absent)
    else ([], entry)
  match destroyed with
  | (evs, ImgEntry.absent) =>
      Except.ok (evs ++ [FsEvent.linked], ImgEntry.symlink target imagesExists)
  | _ => Except.error ()

/-- Embedding of `step_undistort_images` (lines 206-250): create `dense/`,
re-point `dense/images` at the scene images, normalize the cameras into
`dense/sparse`, and verify both are present. -/
def step_undistort_images (scene_dir : String) (fs0 : FS) : StepRes :=
  let fs1 := { fs0 with denseDirExists := true }
  match prepareImages fs1.denseImages (scene_dir ++ "/images") fs1.imagesDirExists with
  | Except.error _ => StepRes.fail Failure.fileExistsError [] fs1
  | Except.ok (_, entry) =>
      let fs2 := { fs1 with denseImages := entry }
      match fs2.sparseRecon with
      | none => StepRes.fail Failure.reconLoadError [] fs2
      | some r =>
          let fs3 := { fs2 with denseSparse := some (convertReconstruction r) }
          if !(imgPathExists fs3.denseImages) then
            StepRes.fail (Failure.stageError "Prepare") [] fs3
          else if fs3.denseSparse.isNone then
            StepRes.fail (Failure.stageError "Prepare") [] fs3
          else StepRes.ok [] fs3

/-- The `InterfaceCOLMAP` command line of lines 264-269. -/
def interfaceCmd (scene_dir : String) : List String :=
  ["InterfaceCOLMAP", "-i", scene_dir ++ "/dense",
   "-o", scene_dir ++ "/mesh/mvs/scene.mvs",
   "--image-folder", scene_dir ++ "/dense/images"]

/-- The `DensifyPointCloud` command line of lines 287-290. -/
def densifyCmd : List String := ["DensifyPointCloud", "scene.mvs"]

/-- The `ReconstructMesh` command line of lines 309-313. -/
def reconstructCmd : List String :=
  ["ReconstructMesh", "scene_dense.mvs", "-p", "scene_dense.ply"]

/-- The `RefineMesh` command line of lines 332-339. -/
def refineCmd (max_face_area : Int) (refine_scales : String) : List String :=
  ["RefineMesh", "scene_dense.mvs", "-m", "scene_dense_mesh.ply",
   "-o", "scene_dense_mesh_refine.mvs",
   "--scales", refine_scales, "--max-face-area", toString max_face_area]

/-- The `TextureMesh` command line of lines 358-363. -/
def textureCmd : List String :=
  ["TextureMesh", "scene_dense.mvs", "-m", "scene_dense_mesh_refine.ply",
   "-o", "scene_dense_mesh_refine_texture.mvs"]

/-- The shared shape of stages 2-6 in the source: run the external command
(`run_command`, `check=True`), then require the stage's named output
artifact to exist, else print the stage error and `sys.exit(1)`. -/
def stageWithCheck (w : World) (c : List String) (chk : FS → Bool)
    (st : String) (fs : FS) : StepRes :=
  (run_command w c fs).andThen fun fs' =>
    if chk fs' then StepRes.ok [] fs'
    else StepRes.fail (Failure.stageError st) [] fs'

/-- Embedding of `step_interface_colmap` (lines 253-278): make the mvs
directory, run `InterfaceCOLMAP`, require `scene.mvs` afterwards. -/
def step_interface_colmap (w : World) (scene_dir : String) (fs : FS) : StepRes :=
  stageWithCheck w (interfaceCmd scene_dir) (fun fs' => fs'.scene_mvs) "Convert"
    { fs with mvsDirExists := true }

/-- Embedding of `step_densify_point_cloud` (lines 281-300): run
`DensifyPointCloud`, require `scene_dense.mvs` afterwards. -/
def step_densify_point_cloud (w : World) (fs : FS) : StepRes :=
  stageWithCheck w densifyCmd (fun fs' => fs'.scene_dense_mvs) "Densify" fs

/-- Embedding of `step_reconstruct_mesh` (lines 303-323). -/
def step_reconstruct_mesh (w : World) (fs : FS) : StepRes :=
  stageWithCheck w reconstructCmd (fun fs' => fs'.scene_dense_mesh_ply)
    "Reconstruct" fs

/-- Embedding of `step_refine_mesh` (lines 326-349). -/
def step_refine_mesh (w : World) (max_face_area : Int) (refine_scales : String)
    (fs : FS) : StepRes :=
  stageWithCheck w (refineCmd max_face_area refine_scales)
    (fun fs' => fs'.refine_ply) "Refine" fs

/-- Embedding of `step_texture_mesh` (lines 352-373). -/
def step_texture_mesh (w : World) (fs : FS) : StepRes :=
  stageWithCheck w textureCmd (fun fs' => fs'.texture_ply) "Texture" fs

/-- Parsed CLI arguments (`parse_args`, lines 29-66). -/
structure Args where
  scene_dir : String
  no_texture : Bool
  max_face_area : Int
  refine_scales : String
  skip_if_exists : Bool
  keep_intermediate : Bool

/-- The six required command names of `check_dependencies` (lines 71-78). -/
def requiredCommands : List String :=
  ["colmap", "InterfaceCOLMAP", "DensifyPointCloud",
   "ReconstructMesh", "RefineMesh", "TextureMesh"]

/-- The `missing` list of `check_dependencies` (lines 80-83): every required
name not resolving on the search path, in order. -/
def missingCommands (w : World) : List String :=
  requiredCommands.filter (fun c => !(w.which c))

/-- Embedding of `create_progress_file` (lines 376-391). -/
def create_progress_file (a : Args) (fs : FS) : FS :=
  { fs with progress := some ({ completed := true
                                scene_dir := a.scene_dir
                                max_face_area := a.max_face_area
                                refine_scales := a.refine_scales
                                textured := !a.no_texture } : Progress) }

/-- Embedding of `cleanup_intermediate_files` (lines 393-406): unless asked
to keep intermediates, delete the `dense/` tree. -/
def cleanup_intermediate_files (keep_intermediate : Bool) (fs : FS) : FS :=
  if keep_intermediate then fs
  else if fs.denseDirExists then
    { fs with denseDirExists := false
              denseImages := ImgEntry.absent
              denseSparse := none }
  else fs

/-- Existence of the expected final artifact (line 431): the textured mesh
when texturing is enabled, else the refined mesh. -/
def finalMeshExists (a : Args) (fs : FS) : Bool :=
  if a.no_texture then fs.refine_ply else fs.texture_ply

/-- Stages 1-6 of `main` (lines 440-462), chained: each stage runs only if
every earlier one succeeded; the texture stage is skipped under
`no_texture`. -/
def runStages (w : World) (a : Args) (fs : FS) : StepRes :=
  (step_undistort_images a.scene_dir fs).andThen fun fs =>
  (step_interface_colmap w a.scene_dir fs).andThen fun fs =>
  (step_densify_point_cloud w fs).andThen fun fs =>
  (step_reconstruct_mesh w fs).andThen fun fs =>
  (step_refine_mesh w a.max_face_area a.refine_scales fs).andThen fun fs =>
  if a.no_texture then StepRes.ok [] fs else step_texture_mesh w fs

/-- Everything `main` did: terminal outcome, external commands executed,
whether scene-layout validation ran, whether the progress record was
written, and the final filesystem. -/
structure MainResult where
  outcome : Outcome
  commands : List (List String)
  validated : Bool
  progressWritten : Bool
  fs : FS
deriving DecidableEq

/-- Embedding of `main` (lines 409-487): dependency check, resume gate,
scene validation, the six stages, the progress record, cleanup. -/
def mainRun (w : World) (a : Args) (fs0 : FS) : MainResult :=
  let missing := missingCommands w
  if missing = [] then
    if a.skip_if_exists && finalMeshExists a fs0 then
      { outcome := Outcome.skipped, commands := [], validated := false,
        progressWritten := false, fs := fs0 }
    else
      match validate_input_structure fs0 with
      | Except.error e =>
          { outcome := Outcome.failed (Failure.validationError e), commands := [],
            validated := true, progressWritten := false, fs := fs0 }
      | Except.ok _ =>
          match runStages w a fs0 with
          | StepRes.fail g cs fs =>
              { outcome := Outcome.failed g, commands := cs, validated := true,
                progressWritten := false, fs := fs }
          | StepRes.ok cs fs =>
              { outcome := Outcome.ok, commands := cs, validated := true,
                progressWritten := true,
                fs := cleanup_intermediate_files a.keep_intermediate
                        (create_progress_file a fs) }
  else
    { outcome := Outcome.failed (Failure.depError missing), commands := [],
      validated := false, progressWritten := false, fs := fs0 }

/-! ## Concrete fixtures used by witnesses and counterexamples -/

/-- A well-formed input scene: images and a parseable sparse reconstruction
present, no pipeline artifacts yet. -/
def fsGood : FS :=
  { imagesDirExists := true
    imageNames := ["img001.jpg"]
    sparseDirExists := true
    sparseFiles := ["cameras.bin", "images.bin", "points3D.bin"]
    sparseRecon := some ⟨[]⟩
    denseDirExists := false
    denseImages := ImgEntry.absent
    denseSparse := none
    mvsDirExists := false
    scene_mvs := false
    scene_dense_mvs := false
    scene_dense_mesh_ply := false
    refine_ply := false
    texture_ply := false
    progress := none }

/-- A representative argument record with the resume flag set. -/
def argsGood : Args :=
  { scene_dir := "/data/scene"
    no_texture := false
    max_face_area := 16
    refine_scales := "1"
    skip_if_exists := true
    keep_intermediate := false }

/-- A world where every tool resolves, every command exits 0 and produces
every artifact. -/
def wOk : World :=
  { which := fun _ => true
    exit := fun _ _ => 0
    effect := fun _ _ =>
      { scene_mvs := some true
        scene_dense_mvs := some true
        scene_dense_mesh_ply := some true
        refine_ply := some true
        texture_ply := some true } }

/-! ## Helper lemmas on the step machinery -/

theorem andThen_fail_left (g : Failure) (cs : List (List String)) (fs : FS)
    (f : FS → StepRes) : (StepRes.fail g cs fs).andThen f = StepRes.fail g cs fs := rfl

theorem ok_andThen_ok {cs' : List (List String)} {fs fs' : FS} {f : FS → StepRes}
    (cs : List (List String)) (hf : f fs = StepRes.ok cs' fs') :
    (StepRes.ok cs fs).andThen f = StepRes.ok (cs ++ cs') fs' := by
  unfold StepRes.andThen
  dsimp only
  rw [hf]

theorem ok_andThen_fail {g : Failure} {cs' : List (List String)} {fs fs' : FS}
    {f : FS → StepRes} (cs : List (List String))
    (hf : f fs = StepRes.fail g cs' fs') :
    (StepRes.ok cs fs).andThen f = StepRes.fail g (cs ++ cs') fs' := by
  unfold StepRes.andThen
  dsimp only
  rw [hf]

theorem andThen_eq_ok {s : StepRes} {f : FS → StepRes} {cs : List (List String)}
    {fs' : FS} (h : s.andThen f = StepRes.ok cs fs') :
    ∃ cs₁ fs₁ cs₂, s = StepRes.ok cs₁ fs₁ ∧ f fs₁ = StepRes.ok cs₂ fs' ∧
      cs = cs₁ ++ cs₂ := by
  cases s with
  | fail g cs₁ fs₁ => rw [andThen_fail_left] at h; cases h
  | ok cs₁ fs₁ =>
      cases hf : f fs₁ with
      | ok cs₂ fs₂ =>
          rw [ok_andThen_ok cs₁ hf] at h
          injection h with h1 h2
          subst h2
          exact ⟨cs₁, fs₁, cs₂, rfl, hf, h1.symm⟩
      | fail g cs₂ fs₂ =>
          rw [ok_andThen_fail cs₁ hf] at h
          cases h

theorem mem_andThen {c : List String} {s : StepRes} {f : FS → StepRes}
    (h : c ∈ (s.andThen f).cmds) :
    c ∈ s.cmds ∨ ∃ cs fs, s = StepRes.ok cs fs ∧ c ∈ (f fs).cmds := by
  cases s with
  | ok cs fs =>
      cases hf : f fs with
      | ok cs' fs' =>
          simp [StepRes.andThen, hf, StepRes.cmds] at h
          rcases h with h | h
          · exact Or.inl (by simpa [StepRes.cmds] using h)
          · exact Or.inr ⟨cs, fs, rfl, by simp [hf, StepRes.cmds, h]⟩
      | fail g cs' fs' =>
          simp [StepRes.andThen, hf, StepRes.cmds] at h
          rcases h with h | h
          · exact Or.inl (by simpa [StepRes.cmds] using h)
          · exact Or.inr ⟨cs, fs, rfl, by simp [hf, StepRes.cmds, h]⟩
  | fail g cs fs =>
      exact Or.inl (by simpa [StepRes.andThen, StepRes.cmds] using h)

theorem run_command_cmds (w : World) (c : List String) (fs : FS) :
    (run_command w c fs).cmds = [c] := by
  unfold run_command
  split <;> rfl

theorem undistort_cmds (sd : String) (fs : FS) :
    (step_undistort_images sd fs).cmds = [] := by
  unfold step_undistort_images
  dsimp only
  split
  · rfl
  · split
    · rfl
    · split
      · rfl
      · split <;> rfl

theorem cmds_andThen (s : StepRes) (f : FS → StepRes) :
    (s.andThen f).cmds = s.cmds ++ (match s with
      | StepRes.ok _ fs => (f fs).cmds
      | StepRes.fail _ _ _ => []) := by
  cases s with
  | ok cs fs =>
      cases hf : f fs with
      | ok cs' fs' => rw [ok_andThen_ok cs hf]; simp [StepRes.cmds, hf]
      | fail g cs' fs' => rw [ok_andThen_fail cs hf]; simp [StepRes.cmds, hf]
  | fail g cs fs => simp [andThen_fail_left, StepRes.cmds]

theorem andThen_eq_fail {s : StepRes} {f : FS → StepRes} {g : Failure}
    {cs : List (List String)} {fs' : FS}
    (h : s.andThen f = StepRes.fail g cs fs') :
    s = StepRes.fail g cs fs' ∨
    ∃ cs₁ fs₁ cs₂, s = StepRes.ok cs₁ fs₁ ∧ f fs₁ = StepRes.fail g cs₂ fs' ∧
      cs = cs₁ ++ cs₂ := by
  cases s with
  | fail g' cs₁ fs₁ => rw [andThen_fail_left] at h; exact Or.inl h
  | ok cs₁ fs₁ =>
      cases hf : f fs₁ with
      | ok cs₂ fs₂ => rw [ok_andThen_ok cs₁ hf] at h; cases h
      | fail g₂ cs₂ fs₂ =>
          rw [ok_andThen_fail cs₁ hf] at h
          injection h with e1 e2 e3
          subst e1
          subst e3
          exact Or.inr ⟨cs₁, fs₁, cs₂, rfl, hf, e2.symm⟩

theorem stageWithCheck_cmds (w : World) (c : List String) (chk : FS → Bool)
    (st : String) (fs : FS) : (stageWithCheck w c chk st fs).cmds = [c] := by
  unfold stageWithCheck
  rw [cmds_andThen, run_command_cmds]
  cases hr : run_command w c fs with
  | ok cs' fs' =>
      dsimp only
      split <;> simp [StepRes.cmds]
  | fail g cs' fs' => simp [StepRes.cmds]

theorem stageWithCheck_ok {w : World} {c : List String} {chk : FS → Bool}
    {st : String} {fs : FS} {cs : List (List String)} {fs' : FS}
    (h : stageWithCheck w c chk st fs = StepRes.ok cs fs') :
    chk fs' = true ∧ cs = [c] := by
  unfold stageWithCheck run_command at h
  dsimp only at h
  split at h
  · rcases andThen_eq_ok h with ⟨cs₁, fs₁, cs₂, h1, h2, rfl⟩
    injection h1 with e1 e2
    subst e1
    subst e2
    split at h2
    · injection h2 with e3 e4
      subst e3
      subst e4
      exact ⟨by assumption, by simp⟩
    · cases h2
  · rw [andThen_fail_left] at h
    cases h

theorem stageWithCheck_fail {w : World} {c : List String} {chk : FS → Bool}
    {st : String} {fs : FS} {g : Failure} {cs : List (List String)} {fs' : FS}
    (h : stageWithCheck w c chk st fs = StepRes.fail g cs fs') :
    (g = Failure.cmdError c ∨ g = Failure.stageError st) ∧ cs = [c] := by
  unfold stageWithCheck run_command at h
  dsimp only at h
  split at h
  · rcases andThen_eq_fail h with h | ⟨cs₁, fs₁, cs₂, h1, h2, rfl⟩
    · cases h
    · injection h1 with e1 e2
      subst e1
      subst e2
      split at h2
      · cases h2
      · injection h2 with e3 e4 e5
        subst e3
        subst e4
        exact ⟨Or.inr rfl, by simp⟩
  · rw [andThen_fail_left] at h
    injection h with e1 e2 e3
    subst e1
    subst e2
    exact ⟨Or.inl rfl, rfl⟩

theorem interface_cmds (w : World) (sd : String) (fs : FS) :
    (step_interface_colmap w sd fs).cmds = [interfaceCmd sd] :=
  stageWithCheck_cmds _ _ _ _ _

theorem densify_cmds (w : World) (fs : FS) :
    (step_densify_point_cloud w fs).cmds = [densifyCmd] :=
  stageWithCheck_cmds _ _ _ _ _

theorem reconstruct_cmds (w : World) (fs : FS) :
    (step_reconstruct_mesh w fs).cmds = [reconstructCmd] :=
  stageWithCheck_cmds _ _ _ _ _

theorem refine_cmds (w : World) (m : Int) (s : String) (fs : FS) :
    (step_refine_mesh w m s fs).cmds = [refineCmd m s] :=
  stageWithCheck_cmds _ _ _ _ _

theorem texture_cmds (w : World) (fs : FS) :
    (step_texture_mesh w fs).cmds = [textureCmd] :=
  stageWithCheck_cmds _ _ _ _ _

/-! ## Claim theorems -/

/-- A `RADIAL` camera as COLMAP defines it: parameters
`[f, cx, cy, k1, k2]` with one shared focal length. -/
def radialCam : Camera :=
  { model := "RADIAL", width := 640, height := 480,
    params := [800, 320, 240, 1, 2], camera_id := 7 }

/-- C1: the claim (and the spec) places `RADIAL` and `RADIAL_FISHEYE` in the
single-focal-length family, requiring `fx = fy = params[0]`,
`cx = params[1]`, `cy = params[2]`.  COLMAP's `RADIAL` parameters are
indeed `[f, cx, cy, k1, k2]`, but the code routes `RADIAL` and
`RADIAL_FISHEYE` through the four-parameter branch, reading
`fx, fy, cx, cy = params[0..3]` — so on this camera it produces
`fy = 320` (the principal-point x) and `cy = 1` (the first distortion
coefficient) instead of `fy = 800`, `cy = 240`. -/
theorem radial_camera_params_misread :
    convertCamera 7 radialCam =
      { model := "PINHOLE", width := 640, height := 480,
        params := [800, 320, 240, 1], camera_id := 7 } ∧
    (convertCamera 7 radialCam).params ≠ [800, 800, 320, 240] := by
  constructor
  · rfl
  · intro h
    have h2 := congrArg (fun l => List.getD l 1 (0 : Rat)) h
    simp [convertCamera, radialCam, singleFocalModels, dualFocalModels] at h2

/-- The data of a string append is the append of the data. -/
theorem strData_append (a b : String) : (a ++ b).data = a.data ++ b.data := rfl

/-- `scene/sparse` and `scene/dense/sparse` are distinct paths. -/
theorem sparse_ne_dense_sparse (scene : String) :
    scene ++ "/sparse" ≠ scene ++ "/dense/sparse" := by
  intro h
  have h2 : scene.data ++ "/sparse".data = scene.data ++ "/dense/sparse".data := by
    have := congrArg String.data h
    rwa [strData_append, strData_append] at this
  have h3 := List.append_cancel_left h2
  exact absurd h3 (by decide)

/-- C8: `convert_cameras_to_pinhole` writes the normalized camera set only
at the caller-supplied output directory (`scene/dense/sparse`); every other
path — in particular the input `scene/sparse` — is unchanged. -/
theorem normalization_preserves_sparse_input (scene : String) (fs fs' : ReconFS)
    (h : convert_cameras_to_pinhole fs (scene ++ "/sparse")
           (scene ++ "/dense/sparse") = Except.ok fs') :
    fs' (scene ++ "/sparse") = fs (scene ++ "/sparse") ∧
    (∀ p, p ≠ scene ++ "/dense/sparse" → fs' p = fs p) ∧
    ∃ r, fs (scene ++ "/sparse") = some r ∧
      fs' (scene ++ "/dense/sparse") = some (convertReconstruction r) := by
  unfold convert_cameras_to_pinhole at h
  cases hr : fs (scene ++ "/sparse") with
  | none => rw [hr] at h; cases h
  | some r =>
      rw [hr] at h
      injection h with h
      subst h
      refine ⟨?_, ?_, r, rfl, ?_⟩
      · dsimp only
        rw [if_neg (sparse_ne_dense_sparse scene)]
        exact hr
      · intro p hp
        dsimp only
        rw [if_neg hp]
      · dsimp only
        rw [if_pos rfl]

/-- A one-camera reconstruction used to witness the normalization claims. -/
def reconEx : Recon :=
  ⟨[(1, { model := "SIMPLE_RADIAL", width := 640, height := 480,
          params := [800, 320, 240, 1], camera_id := 1 })]⟩

/-- On-disk layout holding `reconEx` at `/scn/sparse`. -/
def reconFS0 : ReconFS :=
  fun p => if p = "/scn" ++ "/sparse" then some reconEx else none

/-- The layout after normalization into `/scn/dense/sparse`. -/
def reconFS1 : ReconFS :=
  fun p => if p = "/scn" ++ "/dense/sparse" then some (convertReconstruction reconEx)
           else reconFS0 p

theorem normalization_preserves_sparse_input_witness :
    reconFS1 ("/scn" ++ "/sparse") = reconFS0 ("/scn" ++ "/sparse") ∧
    reconFS1 "/elsewhere" = reconFS0 "/elsewhere" :=
  ⟨(normalization_preserves_sparse_input "/scn" reconFS0 reconFS1 rfl).1,
   (normalization_preserves_sparse_input "/scn" reconFS0 reconFS1 rfl).2.1
     "/elsewhere" (by decide)⟩

/-- A scene whose only image has the mixed-case extension `.Jpg`. -/
def fsMixedCase : FS := { fsGood with imageNames := ["photo.Jpg"] }

/-- C5 counterexample: the claim says any file with extension `.jpg`,
`.jpeg` or `.png` under case-insensitive comparison — explicitly including
`.Jpg` — passes the image check.  The code globs six case-sensitive
patterns (`.jpg .jpeg .png .JPG .JPEG .PNG`); `photo.Jpg` matches none, and
validation fails with the no-images error. -/
theorem mixed_case_extension_not_matched :
    validate_input_structure fsMixedCase =
      Except.error ValidationError.noImages ∧
    imageFilesFound ["photo.Jpg"] = [] := ⟨rfl, rfl⟩

/-- C5 amended: the image check passes exactly for files whose name ends in
one of the six literal extension spellings (all-lowercase or
all-uppercase); mixed-case variants are not matched. -/
theorem image_check_exact_case (fs : FS)
    (h1 : fs.imagesDirExists = true)
    (h2 : ∃ n ∈ fs.imageNames, ∃ ext ∈ image_extensions, globMatch ext n = true) :
    validate_input_structure fs ≠ Except.error ValidationError.noImages := by
  obtain ⟨n, hn, ext, hext, hm⟩ := h2
  have hmem : n ∈ imageFilesFound fs.imageNames :=
    List.mem_flatMap.mpr ⟨ext, hext, List.mem_filter.mpr ⟨hn, hm⟩⟩
  have hlen : (imageFilesFound fs.imageNames).length ≠ 0 := by
    simpa [List.length_eq_zero] using List.ne_nil_of_mem hmem
  unfold validate_input_structure
  rw [h1]
  simp only [Bool.not_true, Bool.false_eq_true, if_false, if_neg hlen]
  split
  · simp
  · split <;> simp

theorem image_check_exact_case_witness :
    validate_input_structure fsGood ≠ Except.error ValidationError.noImages :=
  image_check_exact_case fsGood rfl
    ⟨"img001.jpg", by decide, ".jpg", by decide, by decide⟩

/-- A world in which every tool except `colmap` resolves on the path. -/
def wNoColmap : World :=
  { which := fun c => c != "colmap"
    exit := fun _ _ => 0
    effect := fun _ _ => {} }

/-- The scene after a completed run: the final textured mesh exists. -/
def fsDone : FS := { fsGood with texture_ply := true }

/-- C2 counterexample: with `skip_if_exists` set and the expected final
artifact already on disk, the claim requires a zero-status exit with no
dependency check performed, even when tools are missing.  In the code
`check_dependencies` runs first: with `colmap` absent the process exits
non-zero despite the artifact being present. -/
theorem resume_gate_after_dep_check_cex :
    argsGood.skip_if_exists = true ∧
    finalMeshExists argsGood fsDone = true ∧
    (mainRun wNoColmap argsGood fsDone).outcome =
      Outcome.failed (Failure.depError ["colmap"]) ∧
    (mainRun wNoColmap argsGood fsDone).outcome.exitCode = 1 := by decide

/-- C2 amended: the resume gate runs after the dependency check but before
scene-layout validation and any stage.  When every required tool resolves,
`skip_if_exists` is set and the expected final artifact exists, the process
exits with status zero having validated nothing, executed no stage and
left the filesystem untouched. -/
theorem resume_gate_before_validation (w : World) (a : Args) (fs0 : FS)
    (hdeps : ∀ c ∈ requiredCommands, w.which c = true)
    (hskip : a.skip_if_exists = true)
    (hfinal : finalMeshExists a fs0 = true) :
    mainRun w a fs0 =
      { outcome := Outcome.skipped, commands := [], validated := false,
        progressWritten := false, fs := fs0 } ∧
    (mainRun w a fs0).outcome.exitCode = 0 := by
  have hm : missingCommands w = [] := by
    unfold missingCommands
    rw [List.filter_eq_nil_iff]
    intro c hc
    rw [hdeps c hc]
    decide
  have h1 : mainRun w a fs0 =
      { outcome := Outcome.skipped, commands := [], validated := false,
        progressWritten := false, fs := fs0 } := by
    unfold mainRun
    rw [if_pos hm, if_pos (by rw [hskip, hfinal]; rfl)]
  exact ⟨h1, by rw [h1]; rfl⟩

theorem resume_gate_before_validation_witness :
    mainRun wOk argsGood fsDone =
      { outcome := Outcome.skipped, commands := [], validated := false,
        progressWritten := false, fs := fsDone } :=
  (resume_gate_before_validation wOk argsGood fsDone
    (fun _ _ => rfl) rfl rfl).1

/-- C4: whenever any required tools fail to resolve, the run terminates
with a `DependencyError` listing exactly the full sub-list of missing
names (not only the first), exits non-zero, and executes no external
command at all. -/
theorem dependency_check_reports_all_missing (w : World) (a : Args) (fs0 : FS)
    (h : missingCommands w ≠ []) :
    mainRun w a fs0 =
      { outcome := Outcome.failed (Failure.depError (missingCommands w)),
        commands := [], validated := false, progressWritten := false,
        fs := fs0 } ∧
    (mainRun w a fs0).outcome.exitCode = 1 ∧
    missingCommands w = requiredCommands.filter (fun c => !(w.which c)) := by
  have h1 : mainRun w a fs0 =
      { outcome := Outcome.failed (Failure.depError (missingCommands w)),
        commands := [], validated := false, progressWritten := false,
        fs := fs0 } := by
    unfold mainRun
    rw [if_neg h]
  exact ⟨h1, by rw [h1]; rfl, rfl⟩

/-- A world missing exactly `DensifyPointCloud` and `RefineMesh`. -/
def wTwoMissing : World :=
  { which := fun c => !(c == "DensifyPointCloud" || c == "RefineMesh")
    exit := fun _ _ => 0
    effect := fun _ _ => {} }

theorem dependency_check_reports_all_missing_witness :
    mainRun wTwoMissing argsGood fsGood =
      { outcome := Outcome.failed
          (Failure.depError ["DensifyPointCloud", "RefineMesh"]),
        commands := [], validated := false, progressWritten := false,
        fs := fsGood } := by
  have h :=
    (dependency_check_reports_all_missing wTwoMissing argsGood fsGood
      (by decide)).1
  rw [h]
  decide

/-- Every successful return of `prepareImages` ends with the fresh symlink
in place. -/
theorem prepareImages_ok_entry {e : ImgEntry} {t : String} {b : Bool}
    {evs : List FsEvent} {entry : ImgEntry}
    (h : prepareImages e t b = Except.ok (evs, entry)) :
    entry = ImgEntry.symlink t b := by
  unfold prepareImages at h
  dsimp only at h
  split at h
  · injection h with h1
    injection h1 with h2 h3
    exact h3.symm
  · cases h

/-- A successful Prepare step leaves `dense/images` as a symlink to the
resolved scene images directory. -/
theorem undistort_ok_denseImages {sd : String} {fs : FS}
    {cs : List (List String)} {fs' : FS}
    (h : step_undistort_images sd fs = StepRes.ok cs fs') :
    fs'.denseImages = ImgEntry.symlink (sd ++ "/images") fs.imagesDirExists := by
  unfold step_undistort_images at h
  dsimp only at h
  cases hp : prepareImages fs.denseImages (sd ++ "/images") fs.imagesDirExists with
  | error e => rw [hp] at h; cases h
  | ok pr =>
      obtain ⟨evs, entry⟩ := pr
      rw [hp] at h
      dsimp only at h
      cases hr : fs.sparseRecon with
      | none => rw [hr] at h; cases h
      | some r =>
          rw [hr] at h
          dsimp only at h
          split at h
          · cases h
          · split at h
            · cases h
            · injection h with e1 e2
              subst e2
              exact prepareImages_ok_entry hp

/-- A scene carrying a pre-existing dangling symlink at `dense/images`. -/
def fsDangling : FS :=
  { fsGood with denseImages := ImgEntry.symlink "/old/images" false }

/-- C9 counterexample: the claim says any pre-existing `dense/images`
symlink is unlinked before the fresh link is created and that the step
always ends with `dense/images` a symlink to the scene images.  A dangling
pre-existing symlink refutes it: `Path.exists()` follows the link and
reports `False`, so the destroy branch is skipped, the stale link stays,
and `symlink_to` raises `FileExistsError`, aborting the step. -/
theorem dangling_symlink_not_destroyed :
    isSymlinkEntry fsDangling.denseImages = true ∧
    prepareImages fsDangling.denseImages ("/data/scene" ++ "/images")
      fsDangling.imagesDirExists = Except.error () ∧
    step_undistort_images "/data/scene" fsDangling =
      StepRes.fail Failure.fileExistsError []
        { fsDangling with denseDirExists := true } :=
  ⟨rfl, rfl, rfl⟩

/-- C9 amended: unless the pre-existing `dense/images` is a dangling
symlink, the Prepare step first destroys any existing entry — unlink for a
live symlink, recursive delete for a real directory — and then creates the
fresh link, so a successful Prepare always leaves `dense/images` a symlink
to the resolved scene images directory.  A dangling pre-existing symlink
instead aborts the step with `FileExistsError`. -/
theorem prepare_images_destroy_then_link (fs : FS) (sd : String)
    (h : ∀ t, fs.denseImages ≠ ImgEntry.symlink t false) :
    (∃ evs,
      prepareImages fs.denseImages (sd ++ "/images") fs.imagesDirExists =
        Except.ok (evs ++ [FsEvent.linked],
          ImgEntry.symlink (sd ++ "/images") fs.imagesDirExists) ∧
      (fs.denseImages = ImgEntry.absent → evs = []) ∧
      (fs.denseImages = ImgEntry.realDir → evs = [FsEvent.removedTree]) ∧
      (∀ t, fs.denseImages = ImgEntry.symlink t true → evs = [FsEvent.unlinked])) ∧
    (∀ cs fs', step_undistort_images sd fs = StepRes.ok cs fs' →
      fs'.denseImages = ImgEntry.symlink (sd ++ "/images") fs.imagesDirExists) := by
  refine ⟨?_, fun cs fs' hs => undistort_ok_denseImages hs⟩
  cases he : fs.denseImages with
  | absent =>
      refine ⟨[], ?_, fun _ => rfl, ?_, ?_⟩
      · simp [prepareImages, imgPathExists]
      · exact fun hc => ImgEntry.noConfusion hc
      · exact fun t hc => ImgEntry.noConfusion hc
  | realDir =>
      refine ⟨[FsEvent.removedTree], ?_, ?_, fun _ => rfl, ?_⟩
      · simp [prepareImages, imgPathExists, isSymlinkEntry]
      · exact fun hc => ImgEntry.noConfusion hc
      · exact fun t hc => ImgEntry.noConfusion hc
  | symlink t b =>
      cases b with
      | false => exact absurd he (h t)
      | true =>
          refine ⟨[FsEvent.unlinked], ?_, ?_, ?_, fun _ _ => rfl⟩
          · simp [prepareImages, imgPathExists, isSymlinkEntry]
          · exact fun hc => ImgEntry.noConfusion hc
          · exact fun hc => ImgEntry.noConfusion hc

/-- A scene with a pre-existing real directory at `dense/images`. -/
def fsRealDirPrior : FS := { fsGood with denseImages := ImgEntry.realDir }

theorem prepare_images_destroy_then_link_witness :
    (∃ evs,
      prepareImages fsRealDirPrior.denseImages ("/data/scene" ++ "/images")
          fsRealDirPrior.imagesDirExists =
        Except.ok (evs ++ [FsEvent.linked],
          ImgEntry.symlink ("/data/scene" ++ "/images")
            fsRealDirPrior.imagesDirExists) ∧
      (fsRealDirPrior.denseImages = ImgEntry.absent → evs = []) ∧
      (fsRealDirPrior.denseImages = ImgEntry.realDir →
        evs = [FsEvent.removedTree]) ∧
      (∀ t, fsRealDirPrior.denseImages = ImgEntry.symlink t true →
        evs = [FsEvent.unlinked])) ∧
    (∀ cs fs', step_undistort_images "/data/scene" fsRealDirPrior =
        StepRes.ok cs fs' →
      fs'.denseImages = ImgEntry.symlink ("/data/scene" ++ "/images")
        fsRealDirPrior.imagesDirExists) :=
  prepare_images_destroy_then_link fsRealDirPrior "/data/scene"
    (fun _ hc => ImgEntry.noConfusion hc)

/-! ## Lemmas about whole runs -/

theorem cleanup_progress_eq (k : Bool) (fs : FS) :
    (cleanup_intermediate_files k fs).progress = fs.progress := by
  unfold cleanup_intermediate_files
  split
  · rfl
  · split <;> rfl

theorem cleanup_refine_eq (k : Bool) (fs : FS) :
    (cleanup_intermediate_files k fs).refine_ply = fs.refine_ply := by
  unfold cleanup_intermediate_files
  split
  · rfl
  · split <;> rfl

theorem cleanup_texture_eq (k : Bool) (fs : FS) :
    (cleanup_intermediate_files k fs).texture_ply = fs.texture_ply := by
  unfold cleanup_intermediate_files
  split
  · rfl
  · split <;> rfl

theorem cleanup_keeps_final (k : Bool) (a : Args) (fs : FS) :
    finalMeshExists a (cleanup_intermediate_files k (create_progress_file a fs)) =
      finalMeshExists a fs := by
  unfold finalMeshExists
  cases a.no_texture with
  | false => simp [cleanup_texture_eq, create_progress_file]
  | true => simp [cleanup_refine_eq, create_progress_file]

/-- A stage whose output-existence check cannot succeed always fails,
either through the uncaught `CalledProcessError` or through the stage
error, and in both cases the stage's command was the one executed. -/
theorem stageWithCheck_chk_false {w : World} {c : List String} {chk : FS → Bool}
    {st : String} {fs : FS}
    (hc : chk (applyTool (w.effect c fs) fs) = false) :
    ∃ g fsx, stageWithCheck w c chk st fs = StepRes.fail g [c] fsx ∧
      (g = Failure.cmdError c ∨ g = Failure.stageError st) := by
  unfold stageWithCheck run_command
  dsimp only
  by_cases he : w.exit c fs = 0
  · rw [if_pos he]
    refine ⟨Failure.stageError st, applyTool (w.effect c fs) fs, ?_, Or.inr rfl⟩
    have hf : (if chk (applyTool (w.effect c fs) fs) then
          StepRes.ok [] (applyTool (w.effect c fs) fs)
        else StepRes.fail (Failure.stageError st) []
          (applyTool (w.effect c fs) fs)) =
        StepRes.fail (Failure.stageError st) []
          (applyTool (w.effect c fs) fs) := by
      simp [hc]
    rw [ok_andThen_fail [c] hf]
    rfl
  · rw [if_neg he, andThen_fail_left]
    exact ⟨Failure.cmdError c, applyTool (w.effect c fs) fs, rfl, Or.inl rfl⟩

/-- A fully successful stage chain ends with the expected final artifact
(refined mesh without texturing, textured mesh with it) on disk. -/
theorem runStages_ok_final {w : World} {a : Args} {fs : FS}
    {cs : List (List String)} {fs' : FS}
    (h : runStages w a fs = StepRes.ok cs fs') :
    finalMeshExists a fs' = true := by
  unfold runStages at h
  obtain ⟨cs1, fs1, cs2, h1, h2, rfl⟩ := andThen_eq_ok h
  obtain ⟨cs3, fs3, cs4, h3, h4, rfl⟩ := andThen_eq_ok h2
  obtain ⟨cs5, fs5, cs6, h5, h6, rfl⟩ := andThen_eq_ok h4
  obtain ⟨cs7, fs7, cs8, h7, h8, rfl⟩ := andThen_eq_ok h6
  obtain ⟨cs9, fs9, cs10, h9, h10, rfl⟩ := andThen_eq_ok h8
  unfold step_refine_mesh at h9
  by_cases ht : a.no_texture
  · rw [if_pos ht] at h10
    injection h10 with e1 e2
    subst e2
    have hr := (stageWithCheck_ok h9).1
    simpa [finalMeshExists, ht] using hr
  · rw [if_neg ht] at h10
    unfold step_texture_mesh at h10
    have hr := (stageWithCheck_ok h10).1
    simpa [finalMeshExists, ht] using hr

/-! Branch equations for `mainRun`: the five terminal shapes of a run. -/

theorem mainRun_eq_dep {w : World} {a : Args} {fs0 : FS}
    (hm : missingCommands w ≠ []) :
    mainRun w a fs0 =
      { outcome := Outcome.failed (Failure.depError (missingCommands w)),
        commands := [], validated := false, progressWritten := false,
        fs := fs0 } := by
  unfold mainRun
  rw [if_neg hm]

theorem mainRun_eq_skip {w : World} {a : Args} {fs0 : FS}
    (hm : missingCommands w = [])
    (hs : (a.skip_if_exists && finalMeshExists a fs0) = true) :
    mainRun w a fs0 =
      { outcome := Outcome.skipped, commands := [], validated := false,
        progressWritten := false, fs := fs0 } := by
  unfold mainRun
  rw [if_pos hm, if_pos hs]

theorem mainRun_eq_valErr {w : World} {a : Args} {fs0 : FS} {e : ValidationError}
    (hm : missingCommands w = [])
    (hs : ¬(a.skip_if_exists && finalMeshExists a fs0) = true)
    (hv : validate_input_structure fs0 = Except.error e) :
    mainRun w a fs0 =
      { outcome := Outcome.failed (Failure.validationError e), commands := [],
        validated := true, progressWritten := false, fs := fs0 } := by
  unfold mainRun
  rw [if_pos hm, if_neg hs, hv]

theorem mainRun_eq_stageFail {w : World} {a : Args} {fs0 : FS} {g : Failure}
    {cs : List (List String)} {fsr : FS}
    (hm : missingCommands w = [])
    (hs : ¬(a.skip_if_exists && finalMeshExists a fs0) = true)
    (hv : validate_input_structure fs0 = Except.ok ())
    (hr : runStages w a fs0 = StepRes.fail g cs fsr) :
    mainRun w a fs0 =
      { outcome := Outcome.failed g, commands := cs, validated := true,
        progressWritten := false, fs := fsr } := by
  unfold mainRun
  rw [if_pos hm, if_neg hs, hv, hr]

theorem mainRun_eq_ok {w : World} {a : Args} {fs0 : FS}
    {cs : List (List String)} {fsr : FS}
    (hm : missingCommands w = [])
    (hs : ¬(a.skip_if_exists && finalMeshExists a fs0) = true)
    (hv : validate_input_structure fs0 = Except.ok ())
    (hr : runStages w a fs0 = StepRes.ok cs fsr) :
    mainRun w a fs0 =
      { outcome := Outcome.ok, commands := cs, validated := true,
        progressWritten := true,
        fs := cleanup_intermediate_files a.keep_intermediate
                (create_progress_file a fsr) } := by
  unfold mainRun
  rw [if_pos hm, if_neg hs, hv, hr]

/-- Complete case analysis on a run: exactly one of the five branch
equations applies. -/
theorem mainRun_cases (w : World) (a : Args) (fs0 : FS) :
    (missingCommands w ≠ []) ∨
    (missingCommands w = [] ∧
      (a.skip_if_exists && finalMeshExists a fs0) = true) ∨
    (missingCommands w = [] ∧
      ¬(a.skip_if_exists && finalMeshExists a fs0) = true ∧
      ∃ e, validate_input_structure fs0 = Except.error e) ∨
    (missingCommands w = [] ∧
      ¬(a.skip_if_exists && finalMeshExists a fs0) = true ∧
      validate_input_structure fs0 = Except.ok () ∧
      ((∃ g cs fsr, runStages w a fs0 = StepRes.fail g cs fsr) ∨
       (∃ cs fsr, runStages w a fs0 = StepRes.ok cs fsr))) := by
  by_cases hm : missingCommands w = []
  · by_cases hs : (a.skip_if_exists && finalMeshExists a fs0) = true
    · exact Or.inr (Or.inl ⟨hm, hs⟩)
    · cases hv : validate_input_structure fs0 with
      | error e => exact Or.inr (Or.inr (Or.inl ⟨hm, hs, e, rfl⟩))
      | ok u =>
          cases u
          cases hr : runStages w a fs0 with
          | ok cs fsr =>
              exact Or.inr (Or.inr (Or.inr ⟨hm, hs, rfl, Or.inr ⟨cs, fsr, rfl⟩⟩))
          | fail g cs fsr =>
              exact Or.inr (Or.inr (Or.inr ⟨hm, hs, rfl, Or.inl ⟨g, cs, fsr, rfl⟩⟩))
  · exact Or.inl hm

theorem main_ok_deps {w : World} {a : Args} {fs0 : FS}
    (h : (mainRun w a fs0).outcome = Outcome.ok) : missingCommands w = [] := by
  by_cases hm : missingCommands w = []
  · exact hm
  · rw [mainRun_eq_dep hm] at h
    exact absurd h (by simp)

theorem main_ok_final {w : World} {a : Args} {fs0 : FS}
    (h : (mainRun w a fs0).outcome = Outcome.ok) :
    finalMeshExists a (mainRun w a fs0).fs = true := by
  rcases mainRun_cases w a fs0 with hm | ⟨hm, hs⟩ | ⟨hm, hs, e, hv⟩ |
    ⟨hm, hs, hv, ⟨g, cs, fsr, hr⟩ | ⟨cs, fsr, hr⟩⟩
  · rw [mainRun_eq_dep hm] at h
    exact absurd h (by simp)
  · rw [mainRun_eq_skip hm hs] at h
    exact absurd h (by simp)
  · rw [mainRun_eq_valErr hm hs hv] at h
    exact absurd h (by simp)
  · rw [mainRun_eq_stageFail hm hs hv hr] at h
    exact absurd h (by simp)
  · rw [mainRun_eq_ok hm hs hv hr]
    dsimp only
    rw [cleanup_keeps_final]
    exact runStages_ok_final hr

/-- The resume gate: dependencies fine, flag set, artifact present — the
run skips everything and returns the filesystem untouched. -/
theorem gate_skips {w : World} {a : Args} {fs1 : FS}
    (hm : missingCommands w = []) (hskip : a.skip_if_exists = true)
    (hf : finalMeshExists a fs1 = true) :
    mainRun w a fs1 =
      { outcome := Outcome.skipped, commands := [], validated := false,
        progressWritten := false, fs := fs1 } :=
  mainRun_eq_skip hm (by rw [hskip, hf]; rfl)

/-- C6: with `skip_if_exists` set, a successful run leaves the scene in a
state where every further invocation (same environment) is a no-op: the
resume gate fires, no command runs, nothing is validated or written, the
filesystem is returned unchanged, and the process exits zero.  Since the
filesystem is unchanged, the same equation applies to the third and every
later invocation. -/
theorem pipeline_idempotent_skip (w : World) (a : Args) (fs0 : FS)
    (hskip : a.skip_if_exists = true)
    (h : (mainRun w a fs0).outcome = Outcome.ok) :
    mainRun w a (mainRun w a fs0).fs =
      { outcome := Outcome.skipped, commands := [], validated := false,
        progressWritten := false, fs := (mainRun w a fs0).fs } ∧
    (mainRun w a (mainRun w a fs0).fs).outcome.exitCode = 0 := by
  have h1 := gate_skips (main_ok_deps h) hskip (main_ok_final h)
  refine ⟨h1, ?_⟩
  rw [h1]
  rfl

theorem pipeline_idempotent_skip_witness :
    mainRun wOk argsGood (mainRun wOk argsGood fsGood).fs =
      { outcome := Outcome.skipped, commands := [], validated := false,
        progressWritten := false, fs := (mainRun wOk argsGood fsGood).fs } :=
  (pipeline_idempotent_skip wOk argsGood fsGood rfl (by decide)).1

/-- C7: the progress record is written exactly on the fully successful
path — never on the resume-gate path nor on any failing run — and its
content is `{completed: true, scene_dir, max_face_area, refine_scales,
textured = texturing enabled}`. -/
theorem progress_written_iff_success (w : World) (a : Args) (fs0 : FS) :
    ((mainRun w a fs0).progressWritten = true ↔
      (mainRun w a fs0).outcome = Outcome.ok) ∧
    ((mainRun w a fs0).outcome = Outcome.ok →
      (mainRun w a fs0).fs.progress = some
        { completed := true, scene_dir := a.scene_dir,
          max_face_area := a.max_face_area, refine_scales := a.refine_scales,
          textured := !a.no_texture }) := by
  rcases mainRun_cases w a fs0 with hm | ⟨hm, hs⟩ | ⟨hm, hs, e, hv⟩ |
    ⟨hm, hs, hv, ⟨g, cs, fsr, hr⟩ | ⟨cs, fsr, hr⟩⟩
  · rw [mainRun_eq_dep hm]
    simp
  · rw [mainRun_eq_skip hm hs]
    simp
  · rw [mainRun_eq_valErr hm hs hv]
    simp
  · rw [mainRun_eq_stageFail hm hs hv hr]
    simp
  · rw [mainRun_eq_ok hm hs hv hr]
    refine ⟨by simp, fun _ => ?_⟩
    dsimp only
    rw [cleanup_progress_eq]
    rfl

theorem progress_written_iff_success_witness :
    (mainRun wOk argsGood fsGood).fs.progress =
      some { completed := true, scene_dir := "/data/scene",
             max_face_area := 16, refine_scales := "1", textured := true } :=
  (progress_written_iff_success wOk argsGood fsGood).2 (by decide)

/-- Under a world whose `DensifyPointCloud` invocation never leaves
`scene_dense.mvs` on disk, any stage chain that reaches the Densify stage
stops there: the chain result is a failure recorded right after the
Densify command, with only `InterfaceCOLMAP` and `DensifyPointCloud`
having run. -/
theorem runStages_densify_missing {w : World} {a : Args} {fs : FS}
    (H : ∀ fs', (applyTool (w.effect densifyCmd fs') fs').scene_dense_mvs = false)
    (hmem : densifyCmd ∈ (runStages w a fs).cmds) :
    ∃ g fsx, runStages w a fs =
        StepRes.fail g [interfaceCmd a.scene_dir, densifyCmd] fsx ∧
      (g = Failure.cmdError densifyCmd ∨ g = Failure.stageError "Densify") := by
  have hden : ∀ fsi, ∃ g fsx, step_densify_point_cloud w fsi =
      StepRes.fail g [densifyCmd] fsx ∧
      (g = Failure.cmdError densifyCmd ∨ g = Failure.stageError "Densify") := by
    intro fsi
    unfold step_densify_point_cloud
    exact stageWithCheck_chk_false (H fsi)
  unfold runStages at hmem ⊢
  cases hu : step_undistort_images a.scene_dir fs with
  | fail g cs fsx =>
      exfalso
      have hc := undistort_cmds a.scene_dir fs
      rw [hu] at hc
      simp [StepRes.cmds] at hc
      subst hc
      rw [hu, andThen_fail_left] at hmem
      simp [StepRes.cmds] at hmem
  | ok cs fsu =>
      have hc := undistort_cmds a.scene_dir fs
      rw [hu] at hc
      simp [StepRes.cmds] at hc
      subst hc
      rw [hu] at hmem
      cases hi : step_interface_colmap w a.scene_dir fsu with
      | fail gI csI fsI =>
          exfalso
          have hcI := interface_cmds w a.scene_dir fsu
          rw [hi] at hcI
          simp [StepRes.cmds] at hcI
          subst hcI
          have hK : (fun fs =>
              (step_interface_colmap w a.scene_dir fs).andThen fun fs =>
              (step_densify_point_cloud w fs).andThen fun fs =>
              (step_reconstruct_mesh w fs).andThen fun fs =>
              (step_refine_mesh w a.max_face_area a.refine_scales fs).andThen
                fun fs =>
              if a.no_texture then StepRes.ok [] fs
              else step_texture_mesh w fs) fsu =
              StepRes.fail gI [interfaceCmd a.scene_dir] fsI := by
            dsimp only
            rw [hi, andThen_fail_left]
          rw [ok_andThen_fail [] hK] at hmem
          simp [StepRes.cmds] at hmem
          exact absurd hmem (by simp [densifyCmd, interfaceCmd])
      | ok csI fsI =>
          have hcI := interface_cmds w a.scene_dir fsu
          rw [hi] at hcI
          simp [StepRes.cmds] at hcI
          subst hcI
          obtain ⟨g, fsx, hd, hg⟩ := hden fsI
          refine ⟨g, fsx, ?_, hg⟩
          have hK2 : (fun fs =>
              (step_densify_point_cloud w fs).andThen fun fs =>
              (step_reconstruct_mesh w fs).andThen fun fs =>
              (step_refine_mesh w a.max_face_area a.refine_scales fs).andThen
                fun fs =>
              if a.no_texture then StepRes.ok [] fs
              else step_texture_mesh w fs) fsI =
              StepRes.fail g [densifyCmd] fsx := by
            dsimp only
            rw [hd, andThen_fail_left]
          have hK1 : (fun fs =>
              (step_interface_colmap w a.scene_dir fs).andThen fun fs =>
              (step_densify_point_cloud w fs).andThen fun fs =>
              (step_reconstruct_mesh w fs).andThen fun fs =>
              (step_refine_mesh w a.max_face_area a.refine_scales fs).andThen
                fun fs =>
              if a.no_texture then StepRes.ok [] fs
              else step_texture_mesh w fs) fsu =
              StepRes.fail g [interfaceCmd a.scene_dir, densifyCmd] fsx := by
            dsimp only
            rw [hi, ok_andThen_fail [interfaceCmd a.scene_dir] hK2]
            rfl
          rw [ok_andThen_fail [] hK1]
          rfl

/-- Every external command a stage chain runs is one of the five OpenMVS
tools. -/
theorem runStages_cmd_heads {w : World} {a : Args} {fs : FS}
    {c : List String} (h : c ∈ (runStages w a fs).cmds) :
    c.head? = some "InterfaceCOLMAP" ∨ c.head? = some "DensifyPointCloud" ∨
    c.head? = some "ReconstructMesh" ∨ c.head? = some "RefineMesh" ∨
    c.head? = some "TextureMesh" := by
  unfold runStages at h
  rcases mem_andThen h with h | ⟨cs1, fs1, h1, h⟩
  · rw [undistort_cmds] at h
    simp at h
  · rcases mem_andThen h with h | ⟨cs2, fs2, h2, h⟩
    · rw [interface_cmds] at h
      simp at h
      subst h
      exact Or.inl rfl
    · rcases mem_andThen h with h | ⟨cs3, fs3, h3, h⟩
      · rw [densify_cmds] at h
        simp at h
        subst h
        exact Or.inr (Or.inl rfl)
      · rcases mem_andThen h with h | ⟨cs4, fs4, h4, h⟩
        · rw [reconstruct_cmds] at h
          simp at h
          subst h
          exact Or.inr (Or.inr (Or.inl rfl))
        · rcases mem_andThen h with h | ⟨cs5, fs5, h5, h⟩
          · rw [refine_cmds] at h
            simp at h
            subst h
            exact Or.inr (Or.inr (Or.inr (Or.inl rfl)))
          · by_cases ht : a.no_texture
            · rw [if_pos ht] at h
              simp [StepRes.cmds] at h
            · rw [if_neg ht, texture_cmds] at h
              simp at h
              subst h
              exact Or.inr (Or.inr (Or.inr (Or.inr rfl)))

/-- C3: if after the Densify command returns its expected output
`scene_dense.mvs` is absent — whatever the exit code — the whole run fails
at the Densify stage (either the uncaught `CalledProcessError` carrying
the `DensifyPointCloud` command line, or the stage error naming Densify;
the spec's taxonomy calls both `StageExecutionError`), the process exits
non-zero, and the executed commands are exactly Convert's and Densify's —
no Reconstruct, Refine or Texture command runs. -/
theorem densify_output_missing_aborts (w : World) (a : Args) (fs0 : FS)
    (H : ∀ fs, (applyTool (w.effect densifyCmd fs) fs).scene_dense_mvs = false)
    (hmem : densifyCmd ∈ (mainRun w a fs0).commands) :
    (∃ g, (mainRun w a fs0).outcome = Outcome.failed g ∧
      (g = Failure.cmdError densifyCmd ∨ g = Failure.stageError "Densify")) ∧
    (mainRun w a fs0).outcome.exitCode = 1 ∧
    (mainRun w a fs0).commands = [interfaceCmd a.scene_dir, densifyCmd] := by
  rcases mainRun_cases w a fs0 with hm | ⟨hm, hs⟩ | ⟨hm, hs, e, hv⟩ |
    ⟨hm, hs, hv, ⟨g, cs, fsr, hr⟩ | ⟨cs, fsr, hr⟩⟩
  · rw [mainRun_eq_dep hm] at hmem
    simp at hmem
  · rw [mainRun_eq_skip hm hs] at hmem
    simp at hmem
  · rw [mainRun_eq_valErr hm hs hv] at hmem
    simp at hmem
  · rw [mainRun_eq_stageFail hm hs hv hr] at hmem ⊢
    dsimp only at hmem ⊢
    obtain ⟨g', fsx, he, hg'⟩ := runStages_densify_missing H
      (by rw [hr]; simpa [StepRes.cmds] using hmem)
    rw [hr] at he
    injection he with e1 e2 e3
    subst e1
    subst e2
    exact ⟨⟨g, rfl, hg'⟩, rfl, rfl⟩
  · exfalso
    rw [mainRun_eq_ok hm hs hv hr] at hmem
    dsimp only at hmem
    obtain ⟨g', fsx, he, hg'⟩ := runStages_densify_missing H
      (by rw [hr]; simpa [StepRes.cmds] using hmem)
    rw [hr] at he
    cases he

/-- A world where every tool resolves and exits 0, `InterfaceCOLMAP`
produces `scene.mvs`, but `DensifyPointCloud` never produces
`scene_dense.mvs`. -/
def wDenFail : World :=
  { which := fun _ => true
    exit := fun _ _ => 0
    effect := fun c _ =>
      if c.head? = some "InterfaceCOLMAP" then
        { scene_mvs := some true, scene_dense_mvs := some false }
      else
        { scene_dense_mvs := some false } }

theorem densify_output_missing_aborts_witness :
    (mainRun wDenFail argsGood fsGood).outcome.exitCode = 1 ∧
    (mainRun wDenFail argsGood fsGood).commands =
      [interfaceCmd "/data/scene", densifyCmd] :=
  ⟨(densify_output_missing_aborts wDenFail argsGood fsGood
      (fun _ => rfl) (by decide)).2.1,
   (densify_output_missing_aborts wDenFail argsGood fsGood
      (fun _ => rfl) (by decide)).2.2⟩

/-- C10: `colmap` is one of the six names the dependency check requires,
and its absence alone aborts the run with a non-zero exit, yet no pipeline
stage ever invokes `colmap`: every external command any run executes is
one of the five OpenMVS tools. -/
theorem colmap_required_but_never_invoked :
    "colmap" ∈ requiredCommands ∧
    (∀ w a fs0, w.which "colmap" = false →
      (∀ c ∈ requiredCommands, c ≠ "colmap" → w.which c = true) →
      mainRun w a fs0 =
        { outcome := Outcome.failed (Failure.depError ["colmap"]),
          commands := [], validated := false, progressWritten := false,
          fs := fs0 } ∧
      (mainRun w a fs0).outcome.exitCode = 1) ∧
    (∀ w a fs0 c, c ∈ (mainRun w a fs0).commands →
      c.head? = some "InterfaceCOLMAP" ∨ c.head? = some "DensifyPointCloud" ∨
      c.head? = some "ReconstructMesh" ∨ c.head? = some "RefineMesh" ∨
      c.head? = some "TextureMesh") := by
  refine ⟨by decide, ?_, ?_⟩
  · intro w a fs0 h1 h2
    have hI := h2 "InterfaceCOLMAP" (by decide) (by decide)
    have hD := h2 "DensifyPointCloud" (by decide) (by decide)
    have hR := h2 "ReconstructMesh" (by decide) (by decide)
    have hF := h2 "RefineMesh" (by decide) (by decide)
    have hT := h2 "TextureMesh" (by decide) (by decide)
    have hm : missingCommands w = ["colmap"] := by
      simp [missingCommands, requiredCommands, List.filter, h1, hI, hD, hR,
        hF, hT]
    have he := @mainRun_eq_dep w a fs0 (by rw [hm]; simp)
    rw [hm] at he
    exact ⟨he, by rw [he]; rfl⟩
  · intro w a fs0 c hc
    rcases mainRun_cases w a fs0 with hm | ⟨hm, hs⟩ | ⟨hm, hs, e, hv⟩ |
      ⟨hm, hs, hv, ⟨g, cs, fsr, hr⟩ | ⟨cs, fsr, hr⟩⟩
    · rw [mainRun_eq_dep hm] at hc
      simp at hc
    · rw [mainRun_eq_skip hm hs] at hc
      simp at hc
    · rw [mainRun_eq_valErr hm hs hv] at hc
      simp at hc
    · rw [mainRun_eq_stageFail hm hs hv hr] at hc
      exact runStages_cmd_heads (by rw [hr]; simpa [StepRes.cmds] using hc)
    · rw [mainRun_eq_ok hm hs hv hr] at hc
      exact runStages_cmd_heads (by rw [hr]; simpa [StepRes.cmds] using hc)

theorem colmap_required_but_never_invoked_witness :
    mainRun wNoColmap argsGood fsGood =
      { outcome := Outcome.failed (Failure.depError ["colmap"]),
        commands := [], validated := false, progressWritten := false,
        fs := fsGood } ∧
    ((interfaceCmd "/data/scene").head? = some "InterfaceCOLMAP" ∨
     (interfaceCmd "/data/scene").head? = some "DensifyPointCloud" ∨
     (interfaceCmd "/data/scene").head? = some "ReconstructMesh" ∨
     (interfaceCmd "/data/scene").head? = some "RefineMesh" ∨
     (interfaceCmd "/data/scene").head? = some "TextureMesh") :=
  ⟨(colmap_required_but_never_invoked.2.1 wNoColmap argsGood fsGood rfl
      (by decide)).1,
   colmap_required_but_never_invoked.2.2 wOk argsGood fsGood
     (interfaceCmd "/data/scene") (by decide)⟩

end Colmap2Mesh
